import Mathlib

/-
Verification development for the automate-scanner-v2 repository.

The development shallowly embeds the two source files:
  - src/databases/Database.js : the Mysql and Mongo backend drivers
    (connect, setup, prepareDatabase, createTable, makeQuery,
    mySqlDateTime, addData, disconnect);
  - src/web/public/script.js : the browser-side observer
    (the init / settings / logs / status socket handlers,
    getEnteredSettings, startScan).

JavaScript machine integers never overflow in the modelled code paths
(timestamps and counters stay far below 2^53), so numbers are embedded
as Int / Nat.  Asynchronous sequential awaits are embedded as explicit
state / trace passing; fallible operations return Except or carry an
explicit failure oracle.
-/

/- ===== JavaScript value model for the settings form (script.js) ===== -/

/-- Value of a jQuery read in script.js: `.val()` yields a string, or
undefined when the element is absent from the DOM; `.prop('checked')`
yields a boolean, or undefined when the element is absent; the stored
`_settings` object also holds numbers (cores, server.port). -/
inductive JsVal
  | str (s : String)
  | num (n : Int)
  | bool (b : Bool)
  | undef
deriving DecidableEq

/-- JavaScript truthiness of the modelled values: the empty string, the
number 0, false and undefined are falsy; everything else is truthy. -/
def JsVal.truthy : JsVal → Bool
  | JsVal.str s => !(s == "")
  | JsVal.num n => !(n == 0)
  | JsVal.bool b => b
  | JsVal.undef => false

/-- Embedding of the JavaScript short-circuit expression `a || b`. -/
def jsOr (a b : JsVal) : JsVal :=
  if a.truthy then a else b

/-- Embedding of the pattern `typeof x === 'boolean' ? x : fb` used in
getEnteredSettings for the two checkbox reads. -/
def boolOrDefault (v fb : JsVal) : JsVal :=
  match v with
  | JsVal.bool b => JsVal.bool b
  | _ => fb

/-- Shape of `_settings.mysql` in script.js. -/
structure MysqlConfig where
  host : JsVal
  user : JsVal
  password : JsVal
  dbName : JsVal
deriving DecidableEq

/-- Shape of `_settings.mongo` in script.js; `options` is only ever
passed through unchanged, so its entries are kept as opaque pairs. -/
structure MongoConfig where
  uri : JsVal
  options : List (String × String)
  dbName : JsVal
deriving DecidableEq

/-- Shape of `_settings.server` in script.js. -/
structure ServerConfig where
  port : JsVal
  openBrowser : JsVal
deriving DecidableEq

/-- Shape of the `_settings` object in script.js. -/
structure ScannerSettings where
  dbType : JsVal
  mysql : MysqlConfig
  mongo : MongoConfig
  cores : JsVal
  logging : JsVal
  server : ServerConfig
deriving DecidableEq

/-- The jQuery reads performed by getEnteredSettings, one field per
DOM element it consults (string inputs and the two checkboxes). -/
structure FormInputs where
  databaseType : JsVal
  sqlHost : JsVal
  sqlUser : JsVal
  sqlPassword : JsVal
  sqlName : JsVal
  mongoUri : JsVal
  mongoName : JsVal
  scanCores : JsVal
  serverPort : JsVal
  serverOpenBrowser : JsVal
  scanLogging : JsVal
deriving DecidableEq

/-- Embedding of getEnteredSettings (script.js lines 114-139): builds the
new settings object from the form reads, falling back to the stored
`_settings` via `||`, except that the SQL user and password use
`x === '' ? '' : x || fallback`, and the two checkboxes use
`typeof x === 'boolean' ? x : fallback`; `mongo.options` is passed
through from the stored settings unchanged. -/
def getEnteredSettings (s : ScannerSettings) (form : FormInputs) : ScannerSettings :=
  let dbSqlPassword := form.sqlPassword
  let dbSqlUser := form.sqlUser
  let serverOpenBrowser := form.serverOpenBrowser
  let scanLogging := form.scanLogging
  { dbType := jsOr form.databaseType s.dbType
    mysql :=
      { host := jsOr form.sqlHost s.mysql.host
        user := if dbSqlUser = JsVal.str "" then JsVal.str "" else jsOr dbSqlUser s.mysql.user
        password := if dbSqlPassword = JsVal.str "" then JsVal.str "" else jsOr dbSqlPassword s.mysql.password
        dbName := jsOr form.sqlName s.mysql.dbName }
    mongo :=
      { uri := jsOr form.mongoUri s.mongo.uri
        options := s.mongo.options
        dbName := jsOr form.mongoName s.mongo.dbName }
    cores := jsOr form.scanCores s.cores
    logging := boolOrDefault scanLogging s.logging
    server :=
      { port := jsOr form.serverPort s.server.port
        openBrowser := boolOrDefault serverOpenBrowser s.server.openBrowser } }

/-- A form field is empty (the user cleared it) or missing (its DOM
element is absent, so `.val()` returned undefined). -/
def emptyOrMissing (v : JsVal) : Prop :=
  v = JsVal.str "" ∨ v = JsVal.undef

instance (v : JsVal) : Decidable (emptyOrMissing v) := by
  unfold emptyOrMissing
  infer_instance

/- ===== Observer state and socket handlers (script.js) ===== -/

/-- Embedding of `args.replace(/\n/g, '<br>')`: every newline character
of the log buffer is replaced by an HTML line break. -/
def renderLogs (s : String) : String :=
  String.join (s.data.map (fun c => if c = '\n' then "<br>" else String.singleton c))

/-- Which main view the observer page currently shows: the initial
settings form, or the scan view injected by startScan, whose state is
the HTML of the logs area, the progress area and the progress-bar
width. -/
inductive ClientView
  | settingsForm
  | scanView (logsArea : String) (progressArea : String) (progressBarWidth : String)
deriving DecidableEq

/-- Observer-side state of script.js: the `_settings` object, the
`_status` variable (undefined until the first init message), and the
current view. -/
structure ClientState where
  settings : ScannerSettings
  status : Option String
  view : ClientView
deriving DecidableEq

/-- Content given to the logs area by startScan: `if (logs)
logsArea.html(logs.replace(/\n/g, '<br>'))` — the area starts empty and
is only filled when `logs` is truthy (present and non-empty). -/
def initialLogsArea (logs : Option String) : String :=
  match logs with
  | some l => if l = "" then "" else renderLogs l
  | none => ""

/-- Embedding of startScan (script.js): replaces the main container with
the scan view (logs area per `initialLogsArea`, progress area
"Initializing", progress bar at width 100%) and registers the scan
listeners. -/
def startScan (st : ClientState) (logs : Option String) : ClientState :=
  { st with view := ClientView.scanView (initialLogsArea logs) "Initializing" "100%" }

/-- Payload of the init socket message: `{config, status}` plus, when a
scan is running, `logs` carrying the current log buffer. -/
structure InitMessage where
  config : ScannerSettings
  status : String
  logs : Option String
deriving DecidableEq

/-- Embedding of the `socket.on('init', ...)` handler (script.js lines
26-34): `_settings = data.config; _status = data.status;` then, if the
status is idle, updateSettings() repopulates the form controls (a
presentation detail outside the modelled state) and a toast is shown;
else if the status is scanning, startScan(data.logs) runs. -/
def onInit (st : ClientState) (data : InitMessage) : ClientState :=
  let st1 := { st with settings := data.config, status := some data.status }
  if data.status = "idle" then
    st1
  else if data.status = "scanning" then
    startScan st1 data.logs
  else
    st1

/-- Embedding of the `socket.on('logs', ...)` handler (script.js lines
195-197): `logsArea.html(args.replace(/\n/g, '<br>'))` overwrites the
whole logs area with the received buffer.  The listener is registered
inside startScan, so it only acts on the scan view. -/
def onLogs (st : ClientState) (args : String) : ClientState :=
  match st.view with
  | ClientView.scanView _ p w => { st with view := ClientView.scanView (renderLogs args) p w }
  | _ => st

/- ===== Timestamp conversion (Database.js, Mysql.mySqlDateTime) ===== -/

/-- Decimal digit character for a value below ten. -/
def digitChar (n : Nat) : Char :=
  Char.ofNat (48 + n)

/-- Two-digit zero-padded decimal rendering, as produced by the Date
string methods for month, day, hour, minute and second fields. -/
def pad2 (n : Nat) : String :=
  String.mk [digitChar (n / 10 % 10), digitChar (n % 10)]

/-- Four-digit zero-padded decimal rendering of the year field. -/
def pad4 (n : Nat) : String :=
  String.mk [digitChar (n / 1000 % 10), digitChar (n / 100 % 10),
    digitChar (n / 10 % 10), digitChar (n % 10)]

/-- Proleptic Gregorian calendar date (year, month, day) of a day count
relative to the epoch 1970-01-01, the calendar used by the JavaScript
Date methods. -/
def civilFromDays (z0 : Int) : Int × Int × Int :=
  let z := z0 + 719468
  let era := Int.ediv z 146097
  let doe := z - era * 146097
  let yoe := Int.ediv (doe - Int.ediv doe 1460 + Int.ediv doe 36524 - Int.ediv doe 146096) 365
  let y := yoe + era * 400
  let doy := doe - (365 * yoe + Int.ediv yoe 4 - Int.ediv yoe 100)
  let mp := Int.ediv (5 * doy + 2) 153
  let d := doy - Int.ediv (153 * mp + 2) 5 + 1
  let m := if mp < 10 then mp + 3 else mp - 9
  (y + (if m ≤ 2 then 1 else 0), m, d)

/-- Whole days since the epoch of a millisecond timestamp (floor, as in
the ECMAScript Day(t) operation). -/
def epochDays (ms : Int) : Int :=
  Int.ediv ms 86400000

/-- Date part of `date.toISOString().split('T')[0]`: the UTC calendar
date of the timestamp as `YYYY-MM-DD`. -/
def isoDatePart (ms : Int) : String :=
  let ymd := civilFromDays (epochDays ms)
  pad4 ymd.1.toNat ++ "-" ++ pad2 ymd.2.1.toNat ++ "-" ++ pad2 ymd.2.2.toNat

/-- Clock-time part `HH:MM:SS` of a millisecond timestamp within its
day, as produced by `date.toTimeString().split(' ')[0]` once the local
offset has been folded into the timestamp. -/
def timeOfDayPart (ms : Int) : String :=
  let t := Int.emod ms 86400000
  pad2 (Int.ediv t 3600000).toNat ++ ":" ++
    pad2 (Int.emod (Int.ediv t 60000) 60).toNat ++ ":" ++
    pad2 (Int.emod (Int.ediv t 1000) 60).toNat

/-- Embedding of Mysql.mySqlDateTime (Database.js lines 118-121):
`date.toISOString().split('T')[0] + ' ' + date.toTimeString().split(' ')[0]`.
The date part comes from toISOString and is therefore the UTC calendar
date; the time part comes from toTimeString and is therefore the local
clock time.  `tzOffsetMin` is the number of minutes the local zone is
ahead of UTC (the negation of Date#getTimezoneOffset), so the local
clock reads timestamp + tzOffsetMin minutes. -/
def mySqlDateTime (tzOffsetMin : Int) (timestamp : Int) : String :=
  isoDatePart timestamp ++ " " ++ timeOfDayPart (timestamp + tzOffsetMin * 60000)

/-- Modelled from the spec: the claimed output format, "`YYYY-MM-DD
HH:MM:SS` in local time" — both the calendar date and the clock time
are rendered from the same local-time view of the instant.  This is the
comparison point for the behavior of `mySqlDateTime`, which is the
translation of the source. -/
def localDateTimeRendering (tzOffsetMin : Int) (timestamp : Int) : String :=
  isoDatePart (timestamp + tzOffsetMin * 60000) ++ " " ++
    timeOfDayPart (timestamp + tzOffsetMin * 60000)

/- ===== Relational persist (Database.js, Mysql.addData) ===== -/

/-- A parameter bound to a `?` placeholder of a parameterized query:
the modelled inserts bind strings and numbers. -/
inductive SqlValue
  | str (s : String)
  | int (n : Int)
deriving DecidableEq

/-- One parameterized statement handed to Mysql.makeQuery. -/
structure SqlQuery where
  sql : String
  params : List SqlValue
deriving DecidableEq

/-- Review record shape consumed by Mysql.addData; `userId` flattens the
source access `review['user']['id']`, timestamps are epoch
milliseconds. -/
structure ReviewRecord where
  id : String
  userId : String
  comment : String
  rating : Int
  created : Int
  modified : Int
deriving DecidableEq

/-- Flow record shape consumed by Mysql.addData; `userId` and
`categoryId` flatten the source accesses `data['user']['id']` and
`data['category']['id']`. -/
structure FlowRecord where
  id : String
  userId : String
  categoryId : String
  title : String
  description : String
  downloads : Int
  featured : Bool
  created : Int
  modified : Int
  uploadVersion : String
  dataVersion : String
  b64Data : String
  reviews : List ReviewRecord
deriving DecidableEq

/-- SQL text of the Flow insert of Mysql.addData (Database.js line 130),
with `${this.dbName}` substituted. -/
def flowsInsertSql (dbName : String) : String :=
  "INSERT INTO `" ++ dbName ++ "`.flows(`id`, `user_id`, `category_id`, `title`, `description`, `downloads`, `featured`, `created`, `modified`, `upload-version`, `data-version`, `base64-data`) VALUES (?, ?, ?, ?, ?, ?, ?, ?, ?, ?, ?, ?)"

/-- SQL text of the Review insert of Mysql.addData (Database.js line
149), with `${this.dbName}` substituted. -/
def reviewsInsertSql (dbName : String) : String :=
  "INSERT INTO `" ++ dbName ++ "`.reviews(`id`, `user_id`, `flow_id`, `comment`,  `rating`, `created`, `modified`) VALUES (?, ?, ?, ?, ?, ?, ?)"

/-- The Flow insert issued by Mysql.addData: the twelve parameters in
source order, with `featured` coerced by `data['featured'] ? 1 : 0` and
the two timestamps converted by mySqlDateTime. -/
def flowInsertQuery (tz : Int) (dbName : String) (data : FlowRecord) : SqlQuery :=
  { sql := flowsInsertSql dbName
    params :=
      [SqlValue.str data.id,
       SqlValue.str data.userId,
       SqlValue.str data.categoryId,
       SqlValue.str data.title,
       SqlValue.str data.description,
       SqlValue.int data.downloads,
       SqlValue.int (if data.featured then 1 else 0),
       SqlValue.str (mySqlDateTime tz data.created),
       SqlValue.str (mySqlDateTime tz data.modified),
       SqlValue.str data.uploadVersion,
       SqlValue.str data.dataVersion,
       SqlValue.str data.b64Data] }

/-- The insert issued by Mysql.addData for one review: the seven
parameters in source order; the third parameter (`flow_id`) is
`data['id']`, taken from the flow record of the same call, never from
the review record. -/
def reviewInsertQuery (tz : Int) (dbName : String) (flowId : String) (review : ReviewRecord) : SqlQuery :=
  { sql := reviewsInsertSql dbName
    params :=
      [SqlValue.str review.id,
       SqlValue.str review.userId,
       SqlValue.str flowId,
       SqlValue.str review.comment,
       SqlValue.int review.rating,
       SqlValue.str (mySqlDateTime tz review.created),
       SqlValue.str (mySqlDateTime tz review.modified)] }

/-- The `for await` loop of Mysql.addData over `data['reviews']`: each
review insert is awaited before the next starts.  `fails` is the
failure oracle for makeQuery (query number `i` rejects when `fails i`);
the first component collects the queries that committed, in issue
order, and the second is the number of the rejecting query, whose
rejection propagates to the caller as the loop stops (the failed insert
itself commits nothing and no rollback statement is ever issued). -/
def addDataReviews (fails : Nat → Bool) (tz : Int) (dbName flowId : String) :
    Nat → List ReviewRecord → List SqlQuery × Option Nat
  | _, [] => ([], none)
  | i, review :: rest =>
    if fails i then
      ([], some i)
    else
      let result := addDataReviews fails tz dbName flowId (i + 1) rest
      (reviewInsertQuery tz dbName flowId review :: result.1, result.2)

/-- Embedding of Mysql.addData (Database.js lines 129-161): one awaited
Flow insert (query number 0), then one awaited Review insert per entry
of `data['reviews']` in array order (query numbers 1, 2, ...).  Returns
the committed queries in issue order, and the number of the rejecting
query if one rejects — in which case the error propagates to the caller
and the queries already committed stay committed. -/
def addData (fails : Nat → Bool) (tz : Int) (dbName : String) (data : FlowRecord) :
    List SqlQuery × Option Nat :=
  if fails 0 then
    ([], some 0)
  else
    let rest := addDataReviews fails tz dbName data.id 1 data.reviews
    (flowInsertQuery tz dbName data :: rest.1, rest.2)

/- ===== Relational provisioning (Database.js, Mysql.setup) ===== -/

/-- A relational table: its name and its rows (each row a tuple of
values). -/
structure SqlTable where
  name : String
  rows : List (List SqlValue)
deriving DecidableEq

/-- A named database of the MySQL server, with its tables. -/
structure SqlDatabase where
  name : String
  tables : List SqlTable
deriving DecidableEq

/-- The visible state of the MySQL server: its databases. -/
structure SqlServerState where
  databases : List SqlDatabase
deriving DecidableEq

/-- Result of `SHOW DATABASES LIKE '<dbName>'` (Database.js line 72) for
a database name without LIKE wildcards: the databases with exactly that
name. -/
def showDatabasesLike (dbName : String) (st : SqlServerState) : List SqlDatabase :=
  st.databases.filter (fun d => d.name == dbName)

/-- Effect of `DROP DATABASE` (Database.js line 75): the named database
is removed. -/
def dropDatabase (dbName : String) (st : SqlServerState) : SqlServerState :=
  ⟨st.databases.filter (fun d => !(d.name == dbName))⟩

/-- Effect of `CREATE DATABASE` (Database.js line 77): a fresh database
with no tables is added; MySQL rejects the statement if a database of
that name already exists. -/
def createDatabase (dbName : String) (st : SqlServerState) : Except String SqlServerState :=
  if (showDatabasesLike dbName st).isEmpty then
    Except.ok ⟨st.databases ++ [⟨dbName, []⟩]⟩
  else
    Except.error "ER_DB_CREATE_EXISTS"

/-- Embedding of Mysql.prepareDatabase (Database.js lines 71-80): count
the databases matching the configured name; when the count is exactly
one, drop that database; then create it afresh.  The trailing `USE`
statement only sets the default database of the session and does not
change server state. -/
def prepareDatabase (dbName : String) (st : SqlServerState) : Except String SqlServerState :=
  let dbCount := showDatabasesLike dbName st
  let st1 := if dbCount.length = 1 then dropDatabase dbName st else st
  createDatabase dbName st1

/-- Modelled from the spec: the `CREATE TABLE` statements executed by
Mysql.createTable live in sql-tables.json, which is not under src/; per
the Schema Catalog each statement creates the named table, empty, in
the database selected by prepareDatabase, and MySQL rejects it if the
table already exists there. -/
def createTable (dbName tableName : String) (st : SqlServerState) : Except String SqlServerState :=
  if (st.databases.filter (fun d => d.name == dbName)).isEmpty then
    Except.error "ER_BAD_DB_ERROR"
  else if st.databases.any (fun d => d.name == dbName && d.tables.any (fun t => t.name == tableName)) then
    Except.error "ER_TABLE_EXISTS_ERROR"
  else
    Except.ok ⟨st.databases.map (fun d =>
      if d.name == dbName then { d with tables := d.tables ++ [⟨tableName, []⟩] } else d)⟩

/-- Embedding of Mysql.setup (Database.js lines 44-50): prepare the
database (drop if present, recreate), then create the `flows` table,
then the `reviews` table, each step awaited. -/
def mysqlSetup (dbName : String) (st : SqlServerState) : Except String SqlServerState := do
  let st1 ← prepareDatabase dbName st
  let st2 ← createTable dbName "flows" st1
  createTable dbName "reviews" st2

/- ===== Document backend (Database.js, Mongo) ===== -/

/-- A document of the document backend: a set of fields. -/
structure MongoCollection where
  name : String
  documents : List (List (String × String))
deriving DecidableEq

/-- The visible state of a Mongo database: its collections. -/
structure MongoDbState where
  collections : List MongoCollection
deriving DecidableEq

/-- Embedding of Mongo.setup (Database.js lines 206-208): the method
body is empty in the source, so the database state is returned
unchanged. -/
def mongoSetup (st : MongoDbState) : MongoDbState :=
  st

/-- Total number of documents held by the database. -/
def mongoDocCount (st : MongoDbState) : Nat :=
  (st.collections.map (fun c => c.documents.length)).sum

/- ===== Connection promise (Database.js, Mysql.connect) ===== -/

/-- Observable outcome of a JavaScript promise: settled by resolution,
settled by rejection, or never settled — possibly with an exception
that escaped to the event loop as an uncaught exception instead of
settling the promise. -/
inductive PromiseOutcome (ε α : Type)
  | resolved (value : α)
  | rejected (err : ε)
  | pending (uncaughtErr : Option ε)
deriving DecidableEq

/-- What a node-style callback body does when invoked: call the
executor's resolve capability, call its reject capability, or throw. -/
inductive CallbackEffect (ε α : Type)
  | callResolve (value : α)
  | callReject (err : ε)
  | throwInCallback (err : ε)
deriving DecidableEq

/-- Embedding of the `db.connect(err => ...)` callback body of
Mysql.connect (Database.js lines 22-37): `if (err) throw err;`
otherwise it logs, stores the handle and calls `resolve(db)`.  The
executor never passes a reject capability. -/
def connectCallback (db : α) (err : Option ε) : CallbackEffect ε α :=
  match err with
  | some e => CallbackEffect.throwInCallback e
  | none => CallbackEffect.callResolve db

/-- JavaScript promise semantics for a callback that runs after the
executor has returned: calling resolve or reject settles the promise,
but a throw inside such an asynchronous callback does not reject the
promise — it escapes as an uncaught exception and the promise stays
pending forever. -/
def settleFromCallback : CallbackEffect ε α → PromiseOutcome ε α
  | CallbackEffect.callResolve v => PromiseOutcome.resolved v
  | CallbackEffect.callReject e => PromiseOutcome.rejected e
  | CallbackEffect.throwInCallback e => PromiseOutcome.pending (some e)

/-- Outcome of the promise returned by Mysql.connect, as a function of
the error the driver passes to the connection callback. -/
def connectOutcome (db : α) (err : Option ε) : PromiseOutcome ε α :=
  settleFromCallback (connectCallback db err)

/- ===== Concrete records used by the witnesses ===== -/

/-- A sample review. -/
def review0 : ReviewRecord :=
  ⟨"r1", "u2", "nice", 5, 0, 0⟩

/-- A second sample review. -/
def review1 : ReviewRecord :=
  ⟨"r2", "u3", "meh", 2, 0, 0⟩

/-- A sample flow with two reviews. -/
def flow0 : FlowRecord :=
  ⟨"f1", "u1", "c1", "Title", "Desc", 3, true, 0, 0, "1.0", "2.0", "QUFB", [review0, review1]⟩

/-- The `_settings` literal of script.js (its default values). -/
def defaultSettings : ScannerSettings :=
  { dbType := JsVal.str "sql"
    mysql :=
      { host := JsVal.str "localhost"
        user := JsVal.str "root"
        password := JsVal.str ""
        dbName := JsVal.str "automate-scanner" }
    mongo :=
      { uri := JsVal.str "mongodb://localhost/"
        options := []
        dbName := JsVal.str "automate-scanner" }
    cores := JsVal.num 8
    logging := JsVal.bool true
    server := { port := JsVal.num 8080, openBrowser := JsVal.bool false } }

/- ===== Helper lemmas ===== -/

/-- With no makeQuery failure, the review loop commits exactly the
review inserts, in input order. -/
lemma addDataReviews_noFail (tz : Int) (dbName flowId : String) :
    ∀ (l : List ReviewRecord) (i : Nat),
      addDataReviews (fun _ => false) tz dbName flowId i l =
        (l.map (reviewInsertQuery tz dbName flowId), none) := by
  intro l
  induction l with
  | nil => intro i; rfl
  | cons r rest ih =>
    intro i
    simp [addDataReviews, ih]

/-- Every query committed by the review loop is the review insert of
one of the input reviews. -/
lemma addDataReviews_mem (fails : Nat → Bool) (tz : Int) (dbName flowId : String) :
    ∀ (l : List ReviewRecord) (i : Nat) (q : SqlQuery),
      q ∈ (addDataReviews fails tz dbName flowId i l).1 →
      ∃ r, r ∈ l ∧ q = reviewInsertQuery tz dbName flowId r := by
  intro l
  induction l with
  | nil =>
    intro i q h
    simp [addDataReviews] at h
  | cons r rest ih =>
    intro i q h
    by_cases hf : fails i = true
    · simp [addDataReviews, hf] at h
    · simp [addDataReviews, hf] at h
      rcases h with h | h
      · exact ⟨r, by simp, h⟩
      · obtain ⟨r2, hr2, hq⟩ := ih (i + 1) q h
        exact ⟨r2, by simp [hr2], hq⟩

/-- When makeQuery rejects exactly query number k, the review loop
started at number s ≤ k commits the first k - s reviews and stops with
error k. -/
lemma addDataReviews_stop (tz : Int) (dbName flowId : String) (k : Nat) :
    ∀ (l : List ReviewRecord) (s : Nat), s ≤ k → k - s < l.length →
      addDataReviews (fun n => n == k) tz dbName flowId s l =
        ((l.take (k - s)).map (reviewInsertQuery tz dbName flowId), some k) := by
  intro l
  induction l with
  | nil =>
    intro s hs hlen
    simp at hlen
  | cons r rest ih =>
    intro s hs hlen
    by_cases hsk : s = k
    · subst hsk
      simp [addDataReviews]
    · have hlt : s < k := lt_of_le_of_ne hs hsk
      have hne : (s == k) = false := by simp [hsk]
      have h2 : k - (s + 1) < rest.length := by
        simp at hlen
        omega
      have h3 : k - s = (k - (s + 1)) + 1 := by omega
      rw [h3, List.take_succ_cons]
      simp [addDataReviews, hne, ih (s + 1) hlt h2]

/- ===== C1 ===== -/

/-- C1: in Mysql.addData, the Flow insert is issued before any Review
insert, and the Review inserts are issued sequentially in exactly the
order the reviews appear in the input array: the committed-query trace
of a failure-free run is the Flow insert followed by the review-insert
map over the input list. -/
theorem addData_flow_before_reviews_in_order (tz : Int) (dbName : String) (data : FlowRecord) :
    addData (fun _ => false) tz dbName data =
      (flowInsertQuery tz dbName data ::
        data.reviews.map (reviewInsertQuery tz dbName data.id), none) := by
  simp [addData, addDataReviews_noFail]

/- ===== C2 ===== -/

/-- C2: every Review insert issued by a Mysql.addData call binds its
third parameter (`flow_id`) to the id of the flow record of that same
call, whatever the failure behavior of the run. -/
theorem addData_review_flow_id (fails : Nat → Bool) (tz : Int) (dbName : String)
    (data : FlowRecord) (q : SqlQuery)
    (h : q ∈ (addData fails tz dbName data).1.drop 1) :
    q.params[2]? = some (SqlValue.str data.id) := by
  by_cases hf : fails 0 = true
  · simp [addData, hf] at h
  · simp [addData, hf] at h
    obtain ⟨r, _, hq⟩ := addDataReviews_mem fails tz dbName data.id data.reviews 1 q h
    subst hq
    rfl

/-- Witness for C2 at a concrete flow: the first review's insert is in
the committed trace after the Flow insert and carries `flow_id = "f1"`. -/
theorem addData_review_flow_id_witness :
    reviewInsertQuery 0 "automate-scanner" flow0.id review0 ∈
      ((addData (fun _ => false) 0 "automate-scanner" flow0).1.drop 1) ∧
    (reviewInsertQuery 0 "automate-scanner" flow0.id review0).params[2]? =
      some (SqlValue.str flow0.id) :=
  ⟨by decide,
    addData_review_flow_id (fun _ => false) 0 "automate-scanner" flow0 _ (by decide)⟩

/- ===== C3 ===== -/

/-- C3: Mysql.mySqlDateTime does not render the instant in local time —
it renders the UTC calendar date next to the local clock time.  In a
UTC+10 zone, the instant 2023-06-01T20:00:00Z (timestamp 1685649600000)
yields "2023-06-01 06:00:00", while its local-time rendering is
"2023-06-02 06:00:00".  The two renderings agree when the local zone is
UTC itself, where the claim's example holds. -/
theorem mySqlDateTime_utc_date_local_time :
    mySqlDateTime 600 1685649600000 = "2023-06-01 06:00:00" ∧
    localDateTimeRendering 600 1685649600000 = "2023-06-02 06:00:00" ∧
    mySqlDateTime 600 1685649600000 ≠ localDateTimeRendering 600 1685649600000 ∧
    mySqlDateTime 0 1685629800000 = "2023-06-01 14:30:00" :=
  ⟨by decide, by decide, by decide, by decide⟩

/- ===== C5 ===== -/

/-- C5: Mongo.setup performs no destructive action: it leaves the
database state — in particular every collection and document — exactly
as it was, so the document count never decreases. -/
theorem mongoSetup_preserves_documents (st : MongoDbState) :
    mongoSetup st = st ∧ mongoDocCount st ≤ mongoDocCount (mongoSetup st) :=
  ⟨rfl, Nat.le_refl _⟩

/- ===== C6 ===== -/

/-- C6: Mysql.addData is not atomic.  If the Review insert at index i
is the query that fails (query number i + 1), the error propagates to
the caller (the run ends with that error), no rollback is issued, and
the committed trace is exactly the Flow insert plus the Review inserts
at indices 0..i-1. -/
theorem addData_partial_commit_on_failure (tz : Int) (dbName : String) (data : FlowRecord)
    (i : Nat) (h : i < data.reviews.length) :
    addData (fun n => n == i + 1) tz dbName data =
      (flowInsertQuery tz dbName data ::
        (data.reviews.take i).map (reviewInsertQuery tz dbName data.id), some (i + 1)) := by
  have h0 : ((0 : Nat) == i + 1) = false := by simp
  have hstop := addDataReviews_stop tz dbName data.id (i + 1) data.reviews 1
    (by omega) (by omega)
  simp at hstop
  simp [addData, h0, hstop]

/-- Witness for C6 at a concrete flow with two reviews, failing the
second review insert (query number 2): the flow insert and the first
review insert are committed, the error is reported. -/
theorem addData_partial_commit_on_failure_witness :
    1 < flow0.reviews.length ∧
    addData (fun n => n == 1 + 1) 0 "automate-scanner" flow0 =
      (flowInsertQuery 0 "automate-scanner" flow0 ::
        (flow0.reviews.take 1).map (reviewInsertQuery 0 "automate-scanner" flow0.id),
        some (1 + 1)) :=
  ⟨by decide, addData_partial_commit_on_failure 0 "automate-scanner" flow0 1 (by decide)⟩

/- ===== C7 ===== -/

/-- C7: when the driver reports a connection error, the promise
returned by Mysql.connect never settles: `throw err` runs inside the
asynchronous driver callback, so the error escapes as an uncaught
exception instead of rejecting the promise — the outcome is pending,
never rejected and never resolved, and the error does not reach the
awaiting caller. -/
theorem connect_error_never_settles :
    connectOutcome () (some "ECONNREFUSED") =
      PromiseOutcome.pending (some "ECONNREFUSED") ∧
    ∀ e : String,
      connectOutcome () (some e) = PromiseOutcome.pending (some e) ∧
      (∀ v : Unit, connectOutcome () (some e) ≠ PromiseOutcome.resolved v) ∧
      (∀ e2 : String, connectOutcome () (some e) ≠ PromiseOutcome.rejected e2) := by
  refine ⟨rfl, fun e => ⟨rfl, fun v h => ?_, fun e2 h => ?_⟩⟩ <;>
    simp [connectOutcome, connectCallback, settleFromCallback] at h

/- ===== C8 ===== -/

/-- C8: the init handler is a full resynchronization: it adopts the
message's config as `_settings` and its status as `_status` (so the
recorded status equals the session status, also when attaching
mid-scan), and when that status is scanning it immediately renders the
scan view with its logs area populated from the log buffer carried in
the same message. -/
theorem onInit_resync (st : ClientState) (data : InitMessage) :
    (onInit st data).settings = data.config ∧
    (onInit st data).status = some data.status ∧
    (data.status = "scanning" →
      (onInit st data).view =
        ClientView.scanView (initialLogsArea data.logs) "Initializing" "100%") := by
  by_cases h1 : data.status = "idle"
  · have h2 : data.status ≠ "scanning" := by rw [h1]; decide
    simp [onInit, h1, h2]
  · by_cases h2 : data.status = "scanning"
    · simp [onInit, startScan, h1, h2]
    · simp [onInit, h1, h2]

/-- A fresh observer page before any message, used by the witnesses. -/
def client0 : ClientState :=
  ⟨defaultSettings, none, ClientView.settingsForm⟩

/-- An init message observed mid-scan, carrying a two-line log buffer. -/
def initMsg0 : InitMessage :=
  ⟨defaultSettings, "scanning", some "line1\nline2"⟩

/-- Witness for C8: attaching mid-scan at a concrete init message
adopts config and status and renders the scan view with the carried
logs. -/
theorem onInit_resync_witness :
    (onInit client0 initMsg0).settings = initMsg0.config ∧
    (onInit client0 initMsg0).status = some initMsg0.status ∧
    (onInit client0 initMsg0).view =
      ClientView.scanView (initialLogsArea initMsg0.logs) "Initializing" "100%" :=
  ⟨(onInit_resync client0 initMsg0).1,
   (onInit_resync client0 initMsg0).2.1,
   (onInit_resync client0 initMsg0).2.2 (by decide)⟩

/- ===== C9 ===== -/

/-- C9: a logs message is an idempotent full-buffer resend: processing
the same message twice leaves the observer state exactly as processing
it once, and afterwards the displayed logs area equals the rendering of
the received buffer (the most recently received one), whatever was
displayed before. -/
theorem onLogs_full_replace (st : ClientState) (args : String) :
    onLogs (onLogs st args) args = onLogs st args ∧
    ∀ l p w, st.view = ClientView.scanView l p w →
      (onLogs st args).view = ClientView.scanView (renderLogs args) p w := by
  obtain ⟨se, stt, v⟩ := st
  cases v with
  | settingsForm =>
    refine ⟨rfl, ?_⟩
    intro l p w h
    simp at h
  | scanView l0 p0 w0 =>
    refine ⟨rfl, ?_⟩
    intro l p w h
    injection h with h1 h2 h3
    subst h2
    subst h3
    rfl

/-- An observer showing the scan view with stale logs, used by the C9
witness. -/
def scanClient0 : ClientState :=
  ⟨defaultSettings, some "scanning", ClientView.scanView "old" "Initializing" "100%"⟩

/-- Witness for C9 at a concrete state and buffer: re-processing the
same logs message is a no-op and the display equals the rendered
buffer. -/
theorem onLogs_full_replace_witness :
    onLogs (onLogs scanClient0 "a\nb") "a\nb" = onLogs scanClient0 "a\nb" ∧
    (onLogs scanClient0 "a\nb").view =
      ClientView.scanView (renderLogs "a\nb") "Initializing" "100%" :=
  ⟨(onLogs_full_replace scanClient0 "a\nb").1,
   (onLogs_full_replace scanClient0 "a\nb").2 "old" "Initializing" "100%" (by decide)⟩

/- ===== C10 ===== -/

/-- C10: getEnteredSettings falls back to the stored setting whenever
the database type, SQL host, SQL database name, Mongo URI, Mongo
database name, cores or server port field is empty or missing — except
the SQL user and password fields, where an empty input is preserved as
the empty string instead of falling back (a missing user or password
element still falls back). -/
theorem getEnteredSettings_fallback (s : ScannerSettings) (form : FormInputs) :
    (emptyOrMissing form.databaseType → (getEnteredSettings s form).dbType = s.dbType) ∧
    (emptyOrMissing form.sqlHost → (getEnteredSettings s form).mysql.host = s.mysql.host) ∧
    (emptyOrMissing form.sqlName → (getEnteredSettings s form).mysql.dbName = s.mysql.dbName) ∧
    (emptyOrMissing form.mongoUri → (getEnteredSettings s form).mongo.uri = s.mongo.uri) ∧
    (emptyOrMissing form.mongoName → (getEnteredSettings s form).mongo.dbName = s.mongo.dbName) ∧
    (emptyOrMissing form.scanCores → (getEnteredSettings s form).cores = s.cores) ∧
    (emptyOrMissing form.serverPort → (getEnteredSettings s form).server.port = s.server.port) ∧
    (form.sqlUser = JsVal.str "" → (getEnteredSettings s form).mysql.user = JsVal.str "") ∧
    (form.sqlUser = JsVal.undef → (getEnteredSettings s form).mysql.user = s.mysql.user) ∧
    (form.sqlPassword = JsVal.str "" → (getEnteredSettings s form).mysql.password = JsVal.str "") ∧
    (form.sqlPassword = JsVal.undef →
      (getEnteredSettings s form).mysql.password = s.mysql.password) := by
  refine ⟨?_, ?_, ?_, ?_, ?_, ?_, ?_, ?_, ?_, ?_, ?_⟩ <;>
  · intro h
    first
      | rcases h with h | h <;> simp [getEnteredSettings, jsOr, JsVal.truthy, h]
      | simp [getEnteredSettings, jsOr, JsVal.truthy, h]

/-- A form state mixing empty and missing fields: database type, SQL
user, SQL database name, Mongo database name and server port empty; SQL
host, SQL password, Mongo URI and cores missing. -/
def form0 : FormInputs :=
  ⟨JsVal.str "", JsVal.undef, JsVal.str "", JsVal.undef, JsVal.str "", JsVal.undef,
   JsVal.str "", JsVal.undef, JsVal.str "", JsVal.bool true, JsVal.undef⟩

/-- Witness for C10 at the default settings and a form mixing empty and
missing fields: every plain field falls back, the emptied user field
stays empty, the missing password field falls back. -/
theorem getEnteredSettings_fallback_witness :
    (getEnteredSettings defaultSettings form0).dbType = defaultSettings.dbType ∧
    (getEnteredSettings defaultSettings form0).mysql.host = defaultSettings.mysql.host ∧
    (getEnteredSettings defaultSettings form0).mysql.dbName = defaultSettings.mysql.dbName ∧
    (getEnteredSettings defaultSettings form0).mongo.uri = defaultSettings.mongo.uri ∧
    (getEnteredSettings defaultSettings form0).mongo.dbName = defaultSettings.mongo.dbName ∧
    (getEnteredSettings defaultSettings form0).cores = defaultSettings.cores ∧
    (getEnteredSettings defaultSettings form0).server.port = defaultSettings.server.port ∧
    (getEnteredSettings defaultSettings form0).mysql.user = JsVal.str "" ∧
    (getEnteredSettings defaultSettings form0).mysql.password = defaultSettings.mysql.password := by
  have t := getEnteredSettings_fallback defaultSettings form0
  exact ⟨t.1 (by decide), t.2.1 (by decide), t.2.2.1 (by decide), t.2.2.2.1 (by decide),
    t.2.2.2.2.1 (by decide), t.2.2.2.2.2.1 (by decide), t.2.2.2.2.2.2.1 (by decide),
    t.2.2.2.2.2.2.2.1 (by decide), t.2.2.2.2.2.2.2.2.2.2 (by decide)⟩

/- ===== C4 helper lemmas ===== -/

/-- A list of databases none of which bears the name n filters to
nothing under the name-match predicate. -/
lemma filterEq_nil_of_noMatch (n : String) :
    ∀ (l : List SqlDatabase), (∀ d ∈ l, (d.name == n) = false) →
      l.filter (fun d => d.name == n) = [] := by
  intro l
  induction l with
  | nil => intro _; rfl
  | cons d rest ih =>
    intro h
    have hd := h d (List.mem_cons_self d rest)
    have hrest := fun x hx => h x (List.mem_cons_of_mem d hx)
    simp [List.filter_cons, hd, ih hrest]

/-- A list of databases none of which bears the name n is unchanged by
dropping that name. -/
lemma filterNe_of_noMatch (n : String) :
    ∀ (l : List SqlDatabase), (∀ d ∈ l, (d.name == n) = false) →
      l.filter (fun d => !(d.name == n)) = l := by
  intro l
  induction l with
  | nil => intro _; rfl
  | cons d rest ih =>
    intro h
    have hd := h d (List.mem_cons_self d rest)
    have hrest := fun x hx => h x (List.mem_cons_of_mem d hx)
    simp [List.filter_cons, hd, ih hrest]

/-- A list of databases none of which bears the name n is unchanged by
an update applied only to databases of that name. -/
lemma mapUpdate_of_noMatch (n : String) (g : SqlDatabase → SqlDatabase) :
    ∀ (l : List SqlDatabase), (∀ d ∈ l, (d.name == n) = false) →
      l.map (fun d => if d.name == n then g d else d) = l := by
  intro l
  induction l with
  | nil => intro _; rfl
  | cons d rest ih =>
    intro h
    have hd := h d (List.mem_cons_self d rest)
    have hrest := fun x hx => h x (List.mem_cons_of_mem d hx)
    rw [List.map_cons, ih hrest, hd]
    rfl

/-- No database of a list none of which bears the name n satisfies a
predicate guarded by the name match. -/
lemma anyGuarded_of_noMatch (n : String) (p : SqlDatabase → Bool) :
    ∀ (l : List SqlDatabase), (∀ d ∈ l, (d.name == n) = false) →
      l.any (fun d => d.name == n && p d) = false := by
  intro l
  induction l with
  | nil => intro _; rfl
  | cons d rest ih =>
    intro h
    have hd := h d (List.mem_cons_self d rest)
    have hrest := fun x hx => h x (List.mem_cons_of_mem d hx)
    simp [List.any_cons, hd, ih hrest]

/-- After dropping the name n, no remaining database bears it. -/
lemma dropDatabase_noMatch (n : String) (st : SqlServerState) :
    ∀ d ∈ (dropDatabase n st).databases, (d.name == n) = false := by
  intro d hd
  have hp := List.of_mem_filter hd
  simpa using hp

/-- Looking up the name n in a state made of non-matching databases
followed by one database named n finds exactly that database. -/
lemma showLike_append_single (n : String) (others : List SqlDatabase) (db : SqlDatabase)
    (hno : ∀ d ∈ others, (d.name == n) = false) (hdb : (db.name == n) = true) :
    showDatabasesLike n ⟨others ++ [db]⟩ = [db] := by
  unfold showDatabasesLike
  rw [List.filter_append, filterEq_nil_of_noMatch n others hno]
  simp [List.filter_cons, hdb]

/-- Mysql.prepareDatabase, run on a server holding at most one database
of the configured name, succeeds and yields the other databases plus a
fresh empty database of that name. -/
lemma prepareDatabase_ok (n : String) (st : SqlServerState)
    (h : (showDatabasesLike n st).length ≤ 1) :
    prepareDatabase n st = Except.ok ⟨(dropDatabase n st).databases ++ [⟨n, []⟩]⟩ := by
  unfold prepareDatabase createDatabase
  rcases hlen : (showDatabasesLike n st).length with _ | k
  · -- no database matches: the state is left alone, creation succeeds
    have hnil : showDatabasesLike n st = [] := List.length_eq_zero.mp hlen
    have hno : ∀ d ∈ st.databases, (d.name == n) = false := by
      intro d hd
      by_contra hc
      have htrue : (d.name == n) = true := by
        revert hc
        cases d.name == n <;> simp
      have hmem : d ∈ showDatabasesLike n st := by
        unfold showDatabasesLike
        exact List.mem_filter.mpr ⟨hd, htrue⟩
      rw [hnil] at hmem
      exact absurd hmem (List.not_mem_nil d)
    have hdrop : (dropDatabase n st).databases = st.databases := by
      unfold dropDatabase
      exact filterNe_of_noMatch n st.databases hno
    simp [hlen, hnil, hdrop, List.isEmpty]
  · -- exactly one database matches (h rules out two or more): drop it
    have hk : k = 0 := by omega
    subst hk
    have hempty : showDatabasesLike n (dropDatabase n st) = [] :=
      filterEq_nil_of_noMatch n (dropDatabase n st).databases (dropDatabase_noMatch n st)
    simp [hlen, hempty, List.isEmpty]

/-- The modelled CREATE TABLE, run on a state of non-matching databases
plus one database named n lacking the new table, appends the new empty
table to that database. -/
lemma createTable_append (n tname : String) (others : List SqlDatabase) (ts : List SqlTable)
    (hno : ∀ d ∈ others, (d.name == n) = false)
    (hts : ts.any (fun t => t.name == tname) = false) :
    createTable n tname ⟨others ++ [⟨n, ts⟩]⟩ =
      Except.ok ⟨others ++ [⟨n, ts ++ [⟨tname, []⟩]⟩]⟩ := by
  have h1 : (others ++ [⟨n, ts⟩] : List SqlDatabase).filter
      (fun d => d.name == n) = [⟨n, ts⟩] :=
    showLike_append_single n others ⟨n, ts⟩ hno (by simp)
  have h2 : (others ++ [⟨n, ts⟩] : List SqlDatabase).any
      (fun d => d.name == n && d.tables.any (fun t => t.name == tname)) = false := by
    rw [List.any_append, anyGuarded_of_noMatch n _ others hno]
    simp [List.any_cons, hts]
  have h3 : (others ++ [⟨n, ts⟩] : List SqlDatabase).map
      (fun d => if d.name == n then { d with tables := d.tables ++ [⟨tname, []⟩] } else d) =
      others ++ [⟨n, ts ++ [⟨tname, []⟩]⟩] := by
    rw [List.map_append, mapUpdate_of_noMatch n _ others hno]
    simp
  simp only [createTable]
  rw [h1, h2, h3]
  simp

/-- One run of Mysql.setup on a server holding at most one database of
the configured name: the named database is re-provisioned to hold
exactly the empty `flows` and `reviews` tables, everything else is kept. -/
lemma mysqlSetup_run (n : String) (st : SqlServerState)
    (h : (showDatabasesLike n st).length ≤ 1) :
    mysqlSetup n st =
      Except.ok ⟨(dropDatabase n st).databases ++
        [⟨n, [⟨"flows", []⟩, ⟨"reviews", []⟩]⟩]⟩ := by
  have hno := dropDatabase_noMatch n st
  have hflows := createTable_append n "flows" (dropDatabase n st).databases [] hno rfl
  have hreviews := createTable_append n "reviews" (dropDatabase n st).databases
    [⟨"flows", []⟩] hno (by decide)
  unfold mysqlSetup
  rw [prepareDatabase_ok n st h]
  show Except.bind _ _ = _
  rw [Except.bind]
  simp only [hflows]
  show Except.bind _ _ = _
  rw [Except.bind]
  simpa using hreviews

/- ===== C4 ===== -/

/-- C4: Mysql.setup is idempotent with respect to the final schema.
From any server state holding at most one database of the configured
name (the MySQL invariant), one run succeeds and re-provisions the
named database to hold exactly the two empty tables `flows` and
`reviews`; running setup again yields exactly the same state; and prior
content of the named database is discarded. -/
theorem mysqlSetup_idempotent_two_empty_tables (dbName : String) (st : SqlServerState)
    (h : (showDatabasesLike dbName st).length ≤ 1) :
    ∃ st1, mysqlSetup dbName st = Except.ok st1 ∧
      mysqlSetup dbName st1 = Except.ok st1 ∧
      showDatabasesLike dbName st1 = [⟨dbName, [⟨"flows", []⟩, ⟨"reviews", []⟩]⟩] := by
  have hno := dropDatabase_noMatch dbName st
  have hshow : showDatabasesLike dbName
      ⟨(dropDatabase dbName st).databases ++ [⟨dbName, [⟨"flows", []⟩, ⟨"reviews", []⟩]⟩]⟩ =
      [⟨dbName, [⟨"flows", []⟩, ⟨"reviews", []⟩]⟩] :=
    showLike_append_single dbName _ _ hno (by simp)
  refine ⟨⟨(dropDatabase dbName st).databases ++ [⟨dbName, [⟨"flows", []⟩, ⟨"reviews", []⟩]⟩]⟩,
    mysqlSetup_run dbName st h, ?_, hshow⟩
  have hlen1 : (showDatabasesLike dbName
      ⟨(dropDatabase dbName st).databases ++ [⟨dbName, [⟨"flows", []⟩, ⟨"reviews", []⟩]⟩]⟩).length ≤ 1 := by
    rw [hshow]
    simp
  have hrun2 := mysqlSetup_run dbName
    ⟨(dropDatabase dbName st).databases ++ [⟨dbName, [⟨"flows", []⟩, ⟨"reviews", []⟩]⟩]⟩ hlen1
  have hdrop2 : (dropDatabase dbName
      ⟨(dropDatabase dbName st).databases ++ [⟨dbName, [⟨"flows", []⟩, ⟨"reviews", []⟩]⟩]⟩).databases =
      (dropDatabase dbName st).databases := by
    show ((dropDatabase dbName st).databases ++
        [⟨dbName, [⟨"flows", []⟩, ⟨"reviews", []⟩]⟩] : List SqlDatabase).filter
          (fun d => !(d.name == dbName)) =
      (dropDatabase dbName st).databases
    rw [List.filter_append, filterNe_of_noMatch dbName _ hno]
    simp
  rw [hrun2, hdrop2]

/-- A server state holding a populated database of the configured name
plus an unrelated database, used by the C4 witness. -/
def sqlState0 : SqlServerState :=
  ⟨[⟨"automate-scanner", [⟨"junk", [[SqlValue.int 1]]⟩]⟩, ⟨"other-db", []⟩]⟩

/-- Witness for C4 at a concrete populated server state. -/
theorem mysqlSetup_idempotent_two_empty_tables_witness :
    (showDatabasesLike "automate-scanner" sqlState0).length ≤ 1 ∧
    ∃ st1, mysqlSetup "automate-scanner" sqlState0 = Except.ok st1 ∧
      mysqlSetup "automate-scanner" st1 = Except.ok st1 ∧
      showDatabasesLike "automate-scanner" st1 =
        [⟨"automate-scanner", [⟨"flows", []⟩, ⟨"reviews", []⟩]⟩] :=
  ⟨by decide, mysqlSetup_idempotent_two_empty_tables "automate-scanner" sqlState0 (by decide)⟩
